import Mathlib

/-!
Shallow embedding of `src/tag_iterator_async.rs` (the `TagIteratorAsync`
engine of the `ebml-iterable` crate) and proofs about it.

The iterator state (`IterState`) carries the remaining source bytes, the
in-memory buffer window, the consumed-byte offset and the open-container
stack, exactly mirroring the fields of `TagIteratorAsync`.  Async
suspension is irrelevant to the values computed, so every operation is a
pure state-passing function.  Helper code of the crate that is not under
`src/` (`tools.rs`, `tag_iterator_util.rs`, `error.rs`) is modelled from
the specification document, as marked on each such definition.
-/

namespace EbmlIterable

/-- Data types a tag can declare, per the external specification collaborator
(`TagDataType` of the `ebml-iterable-specification` crate). -/
inductive TagDataType
  | Master
  | UnsignedInt
  | Integer
  | Utf8
  | Binary
  | Float
deriving DecidableEq, Repr

/-- Selector for constructing the Start or End value of a master tag
(`Master::Start` / `Master::End`). -/
inductive Master
  | Start
  | End
deriving DecidableEq, Repr

/-- Modelled from the spec: the crate's `ToolError` (in `tools.rs`, not under
`src/`); carries the byte-level problem for payload decode failures. -/
inductive ToolError
  | ReadVintOverflow
  | ReadU64Overflow
  | ReadI64Overflow
  | ReadF64Mismatch
  | FromUtf8Error (bytes : List Nat)
deriving DecidableEq, Repr

/-- Errors returned by the iterator (`TagIteratorError` of `error.rs`, not
under `src/`; variants exactly as constructed by `src/tag_iterator_async.rs`).
The `ReadError` payload (the underlying io error) is not modelled. -/
inductive TagIteratorError
  | CorruptedFileData (msg : String)
  | CorruptedTagData (tag_id : Nat) (problem : ToolError)
  | ReadError
deriving DecidableEq, Repr

/-- Declared size of a tag (`EBMLSize` of `tag_iterator_util.rs`, not under
`src/`): an exact payload byte length or the reserved Unknown sentinel. -/
inductive EBMLSize
  | Known (n : Nat)
  | Unknown
deriving DecidableEq, Repr

/-- Open-container stack entry (`ProcessingTag` of `tag_iterator_util.rs`, not
under `src/`): a pending End tag with its declared size and payload start
offset, or a deferred already-decoded tag owed to the caller. -/
inductive ProcessingTag (τ : Type)
  | EndTag (tag : τ) (size : EBMLSize) (start : Nat)
  | NextTag (tag : τ)
deriving DecidableEq, Repr

/-- `ProcessingTag::into_inner`: the tag value held by either entry shape. -/
def ProcessingTag.into_inner {τ : Type} : ProcessingTag τ → τ
  | .EndTag tag _ _ => tag
  | .NextTag tag => tag

/-- The external specification collaborator (`EbmlSpecification`/`EbmlTag`
bounds of `TSpec`): type lookup, tag-value constructors, and the
parent/child relation asked on a master tag value. -/
structure EbmlSpec (τ : Type) where
  get_tag_data_type : Nat → TagDataType
  get_master_tag : Nat → Master → Option τ
  get_unsigned_int_tag : Nat → Nat → Option τ
  get_signed_int_tag : Nat → Int → Option τ
  get_utf8_tag : Nat → List Nat → Option τ
  get_binary_tag : Nat → List Nat → Option τ
  get_raw_tag : Nat → List Nat → τ
  get_float_tag : Nat → Nat → Option τ
  is_child : τ → Nat → Bool

/-- State of a `TagIteratorAsync`: the not-yet-delivered source bytes (plus
whether the source fails with a genuine io error once its bytes run out,
rather than reporting clean end-of-data), and the `buf`, `offset` and
`tag_stack` fields of the struct.  The stack top is the list head. -/
structure IterState (τ : Type) where
  source : List Nat
  srcErr : Bool
  buf : List Nat
  offset : Nat
  tag_stack : List (ProcessingTag τ)
deriving DecidableEq, Repr

/-- Outcome of one engine operation: an ordinary value, a typed error
result, or a Rust panic (unrecoverable abort). -/
inductive RResult (α : Type)
  | ok (val : α)
  | err (e : TagIteratorError)
  | panic (msg : String)
deriving DecidableEq, Repr

/-- Sequencing of fallible state-passing operations (the `?` operator):
errors and panics short-circuit with the state at which they arose. -/
def rstep {τ α β : Type} (r : RResult α × IterState τ)
    (f : α → IterState τ → RResult β × IterState τ) : RResult β × IterState τ :=
  match r with
  | (.ok a, s) => f a s
  | (.err e, s) => (.err e, s)
  | (.panic m, s) => (.panic m, s)

/-- `TagIteratorAsync::new`: empty buffer, offset 0, empty stack. -/
def new {τ : Type} (source : List Nat) (srcErr : Bool) : IterState τ :=
  { source := source, srcErr := srcErr, buf := [], offset := 0, tag_stack := [] }

/-- `advance`: drop the first `length` buffered bytes and move the offset. -/
def advance {τ : Type} (length : Nat) (s : IterState τ) : IterState τ :=
  { s with offset := s.offset + length, buf := s.buf.drop length }

/-- `advance_get`: take the first `length` buffered bytes, dropping them from
the buffer and moving the offset. -/
def advance_get {τ : Type} (length : Nat) (s : IterState τ) :
    List Nat × IterState τ :=
  (s.buf.take length, { s with offset := s.offset + length, buf := s.buf.drop length })

/-- `ensure_data_read(len)`: if the buffer holds fewer than `len` bytes, it is
first extended to length `len` with zero bytes and `read_exact` then
overwrites the extension with as many source bytes as exist.  A full fill
yields `Ok(true)`; running out of source bytes yields `Ok(false)` on clean
end-of-data and `Err(ReadError)` on a genuine io failure — in both of those
cases the zero padding beyond the supplied bytes stays in the buffer. -/
def ensure_data_read {τ : Type} (len : Nat) (s : IterState τ) :
    RResult Bool × IterState τ :=
  if s.buf.length < len then
    let remaining := len - s.buf.length
    let supplied := min remaining s.source.length
    let s' : IterState τ := { s with
      buf := s.buf ++ s.source.take supplied ++ List.replicate (remaining - supplied) 0,
      source := s.source.drop supplied }
    if remaining ≤ s.source.length then (.ok true, s')
    else if s.srcErr then (.err .ReadError, s')
    else (.ok false, s')
  else (.ok true, s)

/-- Modelled from the spec: encoded length of a vint from its first byte's
leading marker bits (part of `tools::read_vint`, `tools.rs` not under
`src/`); the result 9 encodes "no valid marker bit". -/
def vintLength (b : Nat) : Nat :=
  if 128 ≤ b then 1 else if 64 ≤ b then 2 else if 32 ≤ b then 3
  else if 16 ≤ b then 4 else if 8 ≤ b then 5 else if 4 ≤ b then 6
  else if 2 ≤ b then 7 else if 1 ≤ b then 8 else 9

/-- Modelled from the spec: big-endian interpretation of a byte list
(used by `tools::arr_to_u64` and the vint value computation). -/
def beNat : List Nat → Nat
  | [] => 0
  | b :: rest => b * 256 ^ rest.length + beNat rest

/-- Modelled from the spec: `tools::read_vint` (not under `src/`).  Decodes
the self-terminating variable-length integer at the front of the buffer
without consuming it, returning the marker-stripped value and the encoded
length, `none` when the buffer is shorter than the encoding requires, and a
structural error when the leading marker bits admit no valid length. -/
def read_vint (buf : List Nat) : Except ToolError (Option (Nat × Nat)) :=
  match buf with
  | [] => .ok none
  | b :: _ =>
    let length := vintLength b
    if 8 < length then .error .ReadVintOverflow
    else if buf.length < length then .ok none
    else .ok (some (beNat (buf.take length) - 2 ^ (7 * length), length))

/-- Modelled from the spec: conversion of a decoded size vint to `EBMLSize`
(`EBMLSize::from`, `tag_iterator_util.rs` not under `src/`): a value of all
one-bits across its encoded length is the reserved Unknown sentinel; any
other value is Known. -/
def vintToSize (value length : Nat) : EBMLSize :=
  if value = 2 ^ (7 * length) - 1 then .Unknown else .Known value

/-- Modelled from the spec: `tools::arr_to_u64` (not under `src/`): big-endian
fixed-width decode, length 0 is zero, more than 8 bytes is a decode failure. -/
def arr_to_u64 (data : List Nat) : Except ToolError Nat :=
  if 8 < data.length then .error .ReadU64Overflow else .ok (beNat data)

/-- Modelled from the spec: `tools::arr_to_i64` (not under `src/`): big-endian
two's-complement decode, length 0 is zero, more than 8 bytes fails. -/
def arr_to_i64 (data : List Nat) : Except ToolError Int :=
  if 8 < data.length then .error .ReadI64Overflow
  else if 128 ≤ data.headD 0 then .ok ((beNat data : Int) - 2 ^ (8 * data.length))
  else .ok (beNat data)

/-- Modelled from the spec: `tools::arr_to_f64` (not under `src/`): accepts
only 4- or 8-byte payloads; the IEEE-754 value is represented here by its
big-endian bit pattern, since floating point itself is not modelled. -/
def arr_to_f64 (data : List Nat) : Except ToolError Nat :=
  if data.length = 4 ∨ data.length = 8 then .ok (beNat data)
  else .error .ReadF64Mismatch

/-- Is `b` a UTF-8 continuation byte. -/
def utf8Cont (b : Nat) : Bool := 128 ≤ b && b ≤ 191

/-- Modelled from the spec: strict UTF-8 validity (`String::from_utf8`),
rejecting overlong forms, surrogates and values beyond U+10FFFF. -/
def utf8Valid : List Nat → Bool
  | [] => true
  | a :: rest =>
    if a ≤ 127 then utf8Valid rest
    else if 194 ≤ a && a ≤ 223 then
      match rest with
      | b :: r => utf8Cont b && utf8Valid r
      | [] => false
    else if a = 224 then
      match rest with
      | b :: c :: r => (160 ≤ b && b ≤ 191) && utf8Cont c && utf8Valid r
      | _ => false
    else if 225 ≤ a && a ≤ 236 then
      match rest with
      | b :: c :: r => utf8Cont b && utf8Cont c && utf8Valid r
      | _ => false
    else if a = 237 then
      match rest with
      | b :: c :: r => (128 ≤ b && b ≤ 159) && utf8Cont c && utf8Valid r
      | _ => false
    else if 238 ≤ a && a ≤ 239 then
      match rest with
      | b :: c :: r => utf8Cont b && utf8Cont c && utf8Valid r
      | _ => false
    else if a = 240 then
      match rest with
      | b :: c :: d :: r => (144 ≤ b && b ≤ 191) && utf8Cont c && utf8Cont d && utf8Valid r
      | _ => false
    else if 241 ≤ a && a ≤ 243 then
      match rest with
      | b :: c :: d :: r => utf8Cont b && utf8Cont c && utf8Cont d && utf8Valid r
      | _ => false
    else if a = 244 then
      match rest with
      | b :: c :: d :: r => (128 ≤ b && b ≤ 143) && utf8Cont c && utf8Cont d && utf8Valid r
      | _ => false
    else false

/-- Modelled from the spec: `String::from_utf8` at the use site — a strict
UTF-8 decode whose result is represented by the validated byte list. -/
def string_from_utf8 (data : List Nat) : Option (List Nat) :=
  if utf8Valid data then some data else none

/-- Modelled from the spec: the display text of a `ToolError` as wrapped into
`CorruptedFileData` by `e.to_string()` (exact wording lives in `error.rs`,
not under `src/`). -/
def toolErrorMessage : ToolError → String
  | .ReadVintOverflow => "Unable to read vint value. Vint larger than 8 bytes"
  | .ReadU64Overflow => "Unable to read unsigned int. Data larger than 8 bytes"
  | .ReadI64Overflow => "Unable to read int. Data larger than 8 bytes"
  | .ReadF64Mismatch => "Unable to read float. Expected data of length 4 or 8 bytes"
  | .FromUtf8Error _ => "Unable to read utf8 data"

/-- The panic message of the `unwrap_or_else` defect branches:
"Bad specification implementation: Tag id (id) type was (type), but could not
get tag!". -/
def badSpecMsg (tag_id : Nat) (t : String) : String :=
  "Bad specification implementation: Tag id " ++ toString tag_id ++
    " type was " ++ t ++ ", but could not get tag!"

/-- `read_tag_id`: ensure 8 buffered bytes (result ignored), decode a vint at
the buffer front, consume it and add the length-marker bit back in. -/
def read_tag_id {τ : Type} (s : IterState τ) : RResult Nat × IterState τ :=
  rstep (ensure_data_read 8 s) fun _ s' =>
    match read_vint s'.buf with
    | .error e => (.err (.CorruptedFileData (toolErrorMessage e)), s')
    | .ok none =>
      (.err (.CorruptedFileData "Expected tag id, but reached end of source."), s')
    | .ok (some (value, length)) =>
      (.ok (value + 2 ^ (7 * length)), advance length s')

/-- `read_tag_size`: ensure 8 buffered bytes (result ignored), decode a vint,
consume it and convert the value to an `EBMLSize`. -/
def read_tag_size {τ : Type} (s : IterState τ) : RResult EBMLSize × IterState τ :=
  rstep (ensure_data_read 8 s) fun _ s' =>
    match read_vint s'.buf with
    | .error e => (.err (.CorruptedFileData (toolErrorMessage e)), s')
    | .ok none =>
      (.err (.CorruptedFileData "Expected tag size, but reached end of source."), s')
    | .ok (some (value, length)) =>
      (.ok (vintToSize value length), advance length s')

/-- `read_tag_data(size)`: ensure `size` buffered bytes; clean end-of-data
before that is corrupted file data, otherwise consume and return the bytes. -/
def read_tag_data {τ : Type} (size : Nat) (s : IterState τ) :
    RResult (List Nat) × IterState τ :=
  rstep (ensure_data_read size s) fun avail s' =>
    if avail then
      let ds := advance_get size s'
      (.ok ds.1, ds.2)
    else
      (.err (.CorruptedFileData "reached end of file but expecting more data"), s')

/-- The `is_child` computation of `read_tag` on the current stack: no open
container means root level (true); a deferred tag on top means true; a
pending End means true unless the container's declared size is Unknown, in
which case the collaborator's parent/child relation decides. -/
def compute_is_child {τ : Type} (spec : EbmlSpec τ)
    (stack : List (ProcessingTag τ)) (tag_id : Nat) : Bool :=
  match stack with
  | [] => true
  | .NextTag _ :: _ => true
  | .EndTag parent size _ :: _ =>
    match size with
    | .Known _ => true
    | .Unknown => spec.is_child parent tag_id

/-- The leaf-payload decode-and-construct `match` of `read_tag` (lines
143-164): decode the raw bytes per the declared type and build the tag value
through the collaborator; a failed collaborator constructor is a panic, a
failed byte-level decode is a typed `CorruptedTagData` error; Binary falls
back to the always-succeeding raw constructor. -/
def decode_leaf {τ : Type} (spec : EbmlSpec τ) (spec_tag_type : TagDataType)
    (tag_id : Nat) (raw_data : List Nat) : RResult τ :=
  match spec_tag_type with
  | .Master => .panic "Master should have been handled before querying data"
  | .UnsignedInt =>
    match arr_to_u64 raw_data with
    | .error e => .err (.CorruptedTagData tag_id e)
    | .ok val =>
      match spec.get_unsigned_int_tag tag_id val with
      | none => .panic (badSpecMsg tag_id "unsigned int")
      | some t => .ok t
  | .Integer =>
    match arr_to_i64 raw_data with
    | .error e => .err (.CorruptedTagData tag_id e)
    | .ok val =>
      match spec.get_signed_int_tag tag_id val with
      | none => .panic (badSpecMsg tag_id "integer")
      | some t => .ok t
  | .Utf8 =>
    match string_from_utf8 raw_data with
    | none => .err (.CorruptedTagData tag_id (.FromUtf8Error raw_data))
    | some val =>
      match spec.get_utf8_tag tag_id val with
      | none => .panic (badSpecMsg tag_id "utf8")
      | some t => .ok t
  | .Binary =>
    .ok ((spec.get_binary_tag tag_id raw_data).getD (spec.get_raw_tag tag_id raw_data))
  | .Float =>
    match arr_to_f64 raw_data with
    | .error e => .err (.CorruptedTagData tag_id e)
    | .ok val =>
      match spec.get_float_tag tag_id val with
      | none => .panic (badSpecMsg tag_id "float")
      | some t => .ok t

/-- `read_tag`: read the id and size, decide `is_child`, then either run the
master stack protocol (push a pending End and return Start, or
swap-and-defer under a closing Unknown-size parent) or read and decode a
leaf payload (returning it directly or deferring it while surfacing the
implicitly closed container's End tag). -/
def read_tag {τ : Type} (spec : EbmlSpec τ) (s : IterState τ) :
    RResult τ × IterState τ :=
  rstep (read_tag_id s) fun tag_id s₁ =>
  let spec_tag_type := spec.get_tag_data_type tag_id
  rstep (read_tag_size s₁) fun size s₂ =>
  let is_child := compute_is_child spec s₂.tag_stack tag_id
  if spec_tag_type = TagDataType.Master then
    match spec.get_master_tag tag_id Master.End with
    | none => (.panic (badSpecMsg tag_id "master"), s₂)
    | some endVal =>
      match spec.get_master_tag tag_id Master.Start with
      | none => (.panic (badSpecMsg tag_id "master"), s₂)
      | some startVal =>
        let end_tag : ProcessingTag τ := .EndTag endVal size s₂.offset
        if is_child then
          (.ok startVal, { s₂ with tag_stack := end_tag :: s₂.tag_stack })
        else
          match s₂.tag_stack with
          | [] => (.panic "called Option::unwrap on a None value", s₂)
          | old :: rest =>
            (.ok old.into_inner,
             { s₂ with tag_stack := .NextTag startVal :: end_tag :: rest })
  else
    match size with
    | .Unknown =>
      (.err (.CorruptedFileData "Unknown size for primitive not allowed"), s₂)
    | .Known sizeN =>
      rstep (read_tag_data sizeN s₂) fun raw_data s₃ =>
        match decode_leaf spec spec_tag_type tag_id raw_data with
        | .ok tag =>
          if is_child then (.ok tag, s₃)
          else
            match s₃.tag_stack with
            | [] => (.panic "called Option::unwrap on a None value", s₃)
            | old :: rest =>
              (.ok old.into_inner, { s₃ with tag_stack := .NextTag tag :: rest })
        | .err e => (.err e, s₃)
        | .panic m => (.panic m, s₃)

/-- The part of `next` after the stack inspection (lines 188-200): check one
more byte is available; a clean end pops one stack entry and surfaces its
tag as-is, or signals end of sequence on an empty stack; otherwise read a
fresh tag. -/
def next_read {τ : Type} (spec : EbmlSpec τ) (s : IterState τ) :
    Option (RResult τ) × IterState τ :=
  match ensure_data_read 1 s with
  | (.err e, s') => (some (.err e), s')
  | (.panic m, s') => (some (.panic m), s')
  | (.ok avail, s') =>
    if avail then
      let r := read_tag spec s'
      (some r.1, r.2)
    else
      match s'.tag_stack with
      | t :: rest => (some (.ok t.into_inner), { s' with tag_stack := rest })
      | [] => (none, s')

/-- `next`: drain a deferred tag from the stack top, or a pending End whose
Known size bound the offset has reached; otherwise (the popped pending End is
pushed back, leaving the stack as it was) fall through to `next_read`. -/
def next {τ : Type} (spec : EbmlSpec τ) (s : IterState τ) :
    Option (RResult τ) × IterState τ :=
  match s.tag_stack with
  | ProcessingTag.NextTag tag :: rest =>
    (some (.ok tag), { s with tag_stack := rest })
  | ProcessingTag.EndTag tag size start :: rest =>
    (match size with
     | .Known n =>
       if start + n ≤ s.offset then (some (.ok tag), { s with tag_stack := rest })
       else next_read spec s
     | .Unknown => next_read spec s)
  | [] => next_read spec s

/-- First `n` items of the unfolding of a step function `f`, mirroring
`futures::stream::unfold`: each pull performs one step, and a `none` result
terminates the stream permanently. -/
def unfoldTake {σ ι : Type} (f : σ → Option ι × σ) : Nat → σ → List ι
  | 0, _ => []
  | n + 1, st =>
    match f st with
    | (none, _) => []
    | (some i, st') => i :: unfoldTake f n st'

/-- `into_stream`: the stream is the unfolding of `next` (each poll calls
`next` once and forwards its item); observed through its first `n` items. -/
def into_stream_take {τ : Type} (spec : EbmlSpec τ) (n : Nat) (s : IterState τ) :
    List (RResult τ) :=
  unfoldTake (next spec) n s

/-- The first `n` items obtained by calling `next` directly in a loop,
stopping at the end-of-sequence signal. -/
def next_calls_take {τ : Type} (spec : EbmlSpec τ) : Nat → IterState τ → List (RResult τ)
  | 0, _ => []
  | n + 1, s =>
    match next spec s with
    | (none, _) => []
    | (some r, s') => r :: next_calls_take spec n s'

/-- A small concrete tag universe used to evaluate the engine: one master
(id 129 = one-byte vint 0x81), three unsigned-int leaves (ids 130, 131, 132)
of which only 130 and 131 are children of the master, and a raw fallback. -/
inductive TestTag
  | MStart
  | MEnd
  | UIntA (v : Nat)
  | ChildB (v : Nat)
  | SibC (v : Nat)
  | RawT (id : Nat) (data : List Nat)
deriving DecidableEq, Repr

/-- The concrete specification collaborator for `TestTag`: id 129 is the
master, ids 130/131/132 are unsigned-int leaves, everything else is binary
with no structured form; only 130 and 131 are valid children of the master. -/
def testSpec : EbmlSpec TestTag where
  get_tag_data_type id :=
    if id = 129 then .Master
    else if id = 130 ∨ id = 131 ∨ id = 132 then .UnsignedInt
    else .Binary
  get_master_tag id sel :=
    if id = 129 then
      match sel with
      | .Start => some .MStart
      | .End => some .MEnd
    else none
  get_unsigned_int_tag id v :=
    if id = 130 then some (.UIntA v)
    else if id = 131 then some (.ChildB v)
    else if id = 132 then some (.SibC v)
    else none
  get_signed_int_tag _ _ := none
  get_utf8_tag _ _ := none
  get_binary_tag _ _ := none
  get_raw_tag id data := .RawT id data
  get_float_tag _ _ := none
  is_child t id :=
    match t with
    | .MEnd => decide (id = 130 ∨ id = 131)
    | _ => false

/-- A deliberately broken specification collaborator: ids keep the `testSpec`
types but the master and unsigned-int constructors always fail — the
"specification defect" situation. -/
def defectSpec : EbmlSpec TestTag :=
  { testSpec with
      get_master_tag := fun _ _ => none
      get_unsigned_int_tag := fun _ _ => none }

/-- A specification collaborator is well formed when every constructor it is
obliged to support for a declared type succeeds. -/
def WellFormedSpec {τ : Type} (spec : EbmlSpec τ) : Prop :=
  (∀ id, spec.get_tag_data_type id = TagDataType.Master →
     (spec.get_master_tag id Master.Start).isSome
       ∧ (spec.get_master_tag id Master.End).isSome)
  ∧ (∀ id v, spec.get_tag_data_type id = TagDataType.UnsignedInt →
      (spec.get_unsigned_int_tag id v).isSome)
  ∧ (∀ id v, spec.get_tag_data_type id = TagDataType.Integer →
      (spec.get_signed_int_tag id v).isSome)
  ∧ (∀ id v, spec.get_tag_data_type id = TagDataType.Utf8 →
      (spec.get_utf8_tag id v).isSome)
  ∧ (∀ id v, spec.get_tag_data_type id = TagDataType.Float →
      (spec.get_float_tag id v).isSome)

/-! ## Helper lemmas -/

theorem ensure_data_read_tag_stack {τ : Type} (len : Nat) (s : IterState τ) :
    ((ensure_data_read len s).2).tag_stack = s.tag_stack := by
  unfold ensure_data_read
  split
  · dsimp only
    split
    · rfl
    · split <;> rfl
  · rfl

theorem ensure_data_read_no_panic {τ : Type} (len : Nat) (s : IterState τ)
    (m : String) : (ensure_data_read len s).1 ≠ .panic m := by
  unfold ensure_data_read
  split
  · dsimp only
    split
    · simp
    · split <;> simp
  · simp

theorem advance_tag_stack {τ : Type} (len : Nat) (s : IterState τ) :
    (advance len s).tag_stack = s.tag_stack := rfl

theorem read_tag_id_tag_stack {τ : Type} (s : IterState τ) (r : RResult Nat)
    (s' : IterState τ) (h : read_tag_id s = (r, s')) :
    s'.tag_stack = s.tag_stack := by
  unfold read_tag_id rstep at h
  have hs0 : ((ensure_data_read 8 s).2).tag_stack = s.tag_stack :=
    ensure_data_read_tag_stack 8 s
  split at h
  · rename_i a s0 heq
    rw [heq] at hs0
    dsimp only at h
    split at h <;> (cases h; simpa [advance] using hs0)
  · rename_i e s0 heq
    rw [heq] at hs0
    cases h
    simpa using hs0
  · rename_i m s0 heq
    rw [heq] at hs0
    cases h
    simpa using hs0

theorem read_tag_id_no_panic {τ : Type} (s : IterState τ) (m : String)
    (s' : IterState τ) : read_tag_id s ≠ (.panic m, s') := by
  unfold read_tag_id rstep
  split
  · dsimp only
    split <;> simp
  · simp
  · rename_i m0 s0 heq
    intro h
    exact ensure_data_read_no_panic 8 s m0 (by rw [heq])

theorem read_tag_size_tag_stack {τ : Type} (s : IterState τ) (r : RResult EBMLSize)
    (s' : IterState τ) (h : read_tag_size s = (r, s')) :
    s'.tag_stack = s.tag_stack := by
  unfold read_tag_size rstep at h
  have hs0 : ((ensure_data_read 8 s).2).tag_stack = s.tag_stack :=
    ensure_data_read_tag_stack 8 s
  split at h
  · rename_i a s0 heq
    rw [heq] at hs0
    dsimp only at h
    split at h <;> (cases h; simpa [advance] using hs0)
  · rename_i e s0 heq
    rw [heq] at hs0
    cases h
    simpa using hs0
  · rename_i m s0 heq
    rw [heq] at hs0
    cases h
    simpa using hs0

theorem read_tag_size_no_panic {τ : Type} (s : IterState τ) (m : String)
    (s' : IterState τ) : read_tag_size s ≠ (.panic m, s') := by
  unfold read_tag_size rstep
  split
  · dsimp only
    split <;> simp
  · simp
  · rename_i m0 s0 heq
    intro h
    exact ensure_data_read_no_panic 8 s m0 (by rw [heq])

theorem read_tag_data_tag_stack {τ : Type} (n : Nat) (s : IterState τ)
    (r : RResult (List Nat)) (s' : IterState τ)
    (h : read_tag_data n s = (r, s')) : s'.tag_stack = s.tag_stack := by
  unfold read_tag_data rstep at h
  have hs0 : ((ensure_data_read n s).2).tag_stack = s.tag_stack :=
    ensure_data_read_tag_stack n s
  split at h
  · rename_i a s0 heq
    rw [heq] at hs0
    dsimp only at h
    split at h <;> (cases h; simpa [advance_get] using hs0)
  · rename_i e s0 heq
    rw [heq] at hs0
    cases h
    simpa using hs0
  · rename_i m s0 heq
    rw [heq] at hs0
    cases h
    simpa using hs0

theorem read_tag_data_no_panic {τ : Type} (n : Nat) (s : IterState τ)
    (m : String) (s' : IterState τ) : read_tag_data n s ≠ (.panic m, s') := by
  unfold read_tag_data rstep
  split
  · dsimp only
    split <;> simp
  · simp
  · rename_i m0 s0 heq
    intro h
    exact ensure_data_read_no_panic n s m0 (by rw [heq])

theorem ensure_data_read_one_of_ne_nil {τ : Type} (s : IterState τ)
    (h : s.buf ≠ []) : ensure_data_read 1 s = (.ok true, s) := by
  unfold ensure_data_read
  have hlen : ¬ s.buf.length < 1 := by
    cases hb : s.buf with
    | nil => exact absurd hb h
    | cons a l => simp [hb]
  simp [hlen]

/-! ## Claim theorems -/

/-- C4: for every tag read by `read_tag`, the `is_child` decision (factored
here as `compute_is_child`, applied by `read_tag` to the stack at the moment
the size has been read) is: true when the tag stack is empty; true when the
top open container's declared size is `Known`, regardless of the
collaborator's parent/child relation; and, when the top open container's
declared size is `Unknown`, exactly the collaborator's answer to whether
this identifier is a valid child of that container's tag. -/
theorem c4_is_child_rule {τ : Type} :
    (∀ (spec : EbmlSpec τ) (tag_id : Nat),
       compute_is_child spec [] tag_id = true)
    ∧ (∀ (spec : EbmlSpec τ) (tag_id : Nat) (parent : τ) (n start : Nat)
         (rest : List (ProcessingTag τ)),
       compute_is_child spec (.EndTag parent (.Known n) start :: rest) tag_id = true)
    ∧ (∀ (spec : EbmlSpec τ) (tag_id : Nat) (parent : τ) (start : Nat)
         (rest : List (ProcessingTag τ)),
       compute_is_child spec (.EndTag parent .Unknown start :: rest) tag_id
         = spec.is_child parent tag_id) :=
  ⟨fun _ _ => rfl, fun _ _ _ _ _ _ => rfl, fun _ _ _ _ _ => rfl⟩

/-- C10: the stream produced by `into_stream` (the unfolding of `next`, one
call per pull, terminating at the first `none`) yields exactly the same
items, in the same order and with the same termination point, as calling
`next` directly in a loop — for every iterator state and every prefix
length. -/
theorem c10_into_stream_equiv {τ : Type} (spec : EbmlSpec τ) :
    ∀ (n : Nat) (s : IterState τ),
      into_stream_take spec n s = next_calls_take spec n s := by
  intro n
  induction n with
  | zero => intro s; rfl
  | succ k ih =>
    intro s
    unfold into_stream_take unfoldTake next_calls_take
    match h : next spec s with
    | (none, s') => simp [h]
    | (some r, s') =>
      simp only [h]
      exact congrArg (r :: ·) (ih s')

/-- C8: `ensure_data_read len` returns `Ok(true)` exactly when `len`
unconsumed bytes become resident (the buffer already held them or the source
supplied the difference), `Ok(false)` when the source reaches a clean end
first, and the distinct fatal `Err(ReadError)` for a genuine io failure,
never conflating the two; the resulting buffer is the old buffer, the bytes
actually supplied by the source, and zero padding for whatever is missing,
and exactly the supplied bytes are consumed from the source. -/
theorem c8_ensure_data_read_contract {τ : Type} (len : Nat) (s : IterState τ) :
    (ensure_data_read len s).1
      = (if len ≤ s.buf.length + s.source.length then .ok true
         else if s.srcErr then .err .ReadError
         else .ok false)
    ∧ (ensure_data_read len s).2.buf
      = s.buf ++ s.source.take (min (len - s.buf.length) s.source.length)
          ++ List.replicate (len - s.buf.length - s.source.length) 0
    ∧ (ensure_data_read len s).2.source
      = s.source.drop (len - s.buf.length) := by
  by_cases hlt : s.buf.length < len
  · have hcount : len - s.buf.length - min (len - s.buf.length) s.source.length
        = len - s.buf.length - s.source.length := by omega
    by_cases hrem : len - s.buf.length ≤ s.source.length
    · have hmin : min (len - s.buf.length) s.source.length = len - s.buf.length :=
        Nat.min_eq_left hrem
      have hle : len ≤ s.buf.length + s.source.length := by omega
      unfold ensure_data_read
      rw [if_pos hlt]
      dsimp only
      rw [if_pos hrem]
      refine ⟨?_, ?_, ?_⟩
      · rw [if_pos hle]
      · dsimp only
        rw [hcount]
      · dsimp only
        rw [hmin]
    · have hmin : min (len - s.buf.length) s.source.length = s.source.length :=
        Nat.min_eq_right (by omega)
      have hgt : ¬ len ≤ s.buf.length + s.source.length := by omega
      have hdrop : s.source.drop (len - s.buf.length) = [] :=
        List.drop_eq_nil_of_le (by omega)
      unfold ensure_data_read
      rw [if_pos hlt]
      dsimp only
      rw [if_neg hrem]
      refine ⟨?_, ?_, ?_⟩
      · rw [if_neg hgt]
        cases hsE : s.srcErr <;> simp [hsE]
      · cases hsE : s.srcErr
        · rw [if_neg (show ¬(false = true) by decide)]
          dsimp only
          rw [hcount]
        · rw [if_pos (show true = true from rfl)]
          dsimp only
          rw [hcount]
      · cases hsE : s.srcErr
        · rw [if_neg (show ¬(false = true) by decide)]
          dsimp only
          rw [hmin, List.drop_length, hdrop]
        · rw [if_pos (show true = true from rfl)]
          dsimp only
          rw [hmin, List.drop_length, hdrop]
  · have h0 : len - s.buf.length = 0 := by omega
    have hle : len ≤ s.buf.length + s.source.length := by omega
    unfold ensure_data_read
    rw [if_neg hlt]
    refine ⟨?_, ?_, ?_⟩
    · rw [if_pos hle]
    · simp [h0]
    · simp [h0]

/-- C2: if `ensure_data_read len` is called when the buffer holds fewer than
`len` bytes and the source reaches a clean end of data, the call returns
`Ok(false)` but the buffer has nonetheless been extended to length `len`,
its tail beyond the bytes actually obtained consisting of zero bytes never
read from the source (the source is fully drained); a later
`ensure_data_read m` with `m ≤ len` then returns `Ok(true)` without
consulting the source or changing any state, so the phantom zero bytes can
be observed as if they were stream data. -/
theorem c2_phantom_zero_padding {τ : Type} (len : Nat) (s : IterState τ)
    (hb : s.buf.length < len)
    (hs : s.buf.length + s.source.length < len)
    (he : s.srcErr = false) :
    ensure_data_read len s
      = (.ok false,
         { s with
             buf := s.buf ++ s.source
               ++ List.replicate (len - s.buf.length - s.source.length) 0,
             source := [] })
    ∧ (s.buf ++ s.source
        ++ List.replicate (len - s.buf.length - s.source.length) 0).length = len
    ∧ (s.buf ++ s.source
        ++ List.replicate (len - s.buf.length - s.source.length) 0).drop
          (s.buf.length + s.source.length)
        = List.replicate (len - s.buf.length - s.source.length) 0
    ∧ 0 < len - s.buf.length - s.source.length
    ∧ (∀ m, m ≤ len →
        ensure_data_read m
          ({ s with
              buf := s.buf ++ s.source
                ++ List.replicate (len - s.buf.length - s.source.length) 0,
              source := [] } : IterState τ)
          = (.ok true,
             { s with
                 buf := s.buf ++ s.source
                   ++ List.replicate (len - s.buf.length - s.source.length) 0,
                 source := [] })) := by
  have hmin : min (len - s.buf.length) s.source.length = s.source.length :=
    Nat.min_eq_right (by omega)
  have hrem : ¬ len - s.buf.length ≤ s.source.length := by omega
  have hlen2 : (s.buf ++ s.source
      ++ List.replicate (len - s.buf.length - s.source.length) 0).length = len := by
    simp only [List.length_append, List.length_replicate]
    omega
  refine ⟨?_, hlen2, ?_, by omega, ?_⟩
  · unfold ensure_data_read
    rw [if_pos hb]
    dsimp only
    rw [if_neg hrem, he, if_neg (show ¬(false = true) by decide)]
    rw [hmin, List.take_length, List.drop_length]
  · have hl : s.buf.length + s.source.length = (s.buf ++ s.source).length :=
      (List.length_append s.buf s.source).symm
    rw [hl]
    exact List.drop_left (s.buf ++ s.source) _
  · intro m hm
    unfold ensure_data_read
    split
    · rename_i hcond
      dsimp only at hcond
      rw [hlen2] at hcond
      exact absurd hcond (by omega)
    · rfl

/-- A closed instance of the C2 theorem: reading 4 bytes from a one-byte
source returns `Ok(false)` with the buffer padded to `[7, 0, 0, 0]`, and a
later two-byte request succeeds against the phantom bytes alone. -/
theorem c2_witness :
    (ensure_data_read 4 (new (τ := TestTag) [7] false)).1 = .ok false
    ∧ ((ensure_data_read 4 (new (τ := TestTag) [7] false)).2).buf.length = 4
    ∧ (ensure_data_read 2 ((ensure_data_read 4 (new (τ := TestTag) [7] false)).2)).1
        = .ok true := by
  have h := c2_phantom_zero_padding 4 (new (τ := TestTag) [7] false)
    (by decide) (by decide) rfl
  refine ⟨?_, ?_, ?_⟩
  · rw [h.1]
  · rw [h.1]
    exact h.2.1
  · rw [h.1]
    exact congrArg Prod.fst (h.2.2.2.2 2 (by omega))

theorem beNat_lt_of_bytes {L : List Nat} (h : ∀ x ∈ L, x < 256) :
    beNat L < 256 ^ L.length := by
  induction L with
  | nil => simp [beNat]
  | cons b rest ih =>
    have hb : b < 256 := h b (List.mem_cons_self b rest)
    have hr : beNat rest < 256 ^ rest.length :=
      ih (fun x hx => h x (List.mem_cons_of_mem b hx))
    simp only [beNat, List.length_cons, pow_succ]
    calc b * 256 ^ rest.length + beNat rest
        ≤ 255 * 256 ^ rest.length + beNat rest := by
          exact Nat.add_le_add_right (Nat.mul_le_mul_right _ (by omega)) _
      _ < 255 * 256 ^ rest.length + 256 ^ rest.length := by omega
      _ = 256 ^ rest.length * 256 := by ring

theorem vintLength_pos (b : Nat) : 1 ≤ vintLength b := by
  unfold vintLength
  split <;> try omega
  split <;> try omega
  split <;> try omega
  split <;> try omega
  split <;> try omega
  split <;> try omega
  split <;> try omega
  split <;> omega

theorem vintLength_first_byte_lt {b : Nat} (hb : b < 256) :
    b < 2 ^ (9 - vintLength b) := by
  unfold vintLength
  repeat' split
  all_goals omega

theorem read_vint_value_bound {buf : List Nat} {v l : Nat}
    (hb : ∀ x ∈ buf, x < 256)
    (h : read_vint buf = .ok (some (v, l))) :
    v < 2 ^ (7 * l) ∧ 1 ≤ l := by
  match buf with
  | [] => simp [read_vint] at h
  | b :: rest =>
    unfold read_vint at h
    dsimp only at h
    by_cases h8 : 8 < vintLength b
    · rw [if_pos h8] at h
      simp at h
    · rw [if_neg h8] at h
      by_cases hlen : (b :: rest).length < vintLength b
      · rw [if_pos hlen] at h
        simp at h
      · rw [if_neg hlen] at h
        simp only [Except.ok.injEq, Option.some.injEq, Prod.mk.injEq] at h
        obtain ⟨hv, hleq⟩ := h
        subst hleq
        refine ⟨?_, vintLength_pos b⟩
        obtain ⟨k, hk⟩ : ∃ k, vintLength b = k + 1 :=
          ⟨vintLength b - 1, by have := vintLength_pos b; omega⟩
        have hkrest : k ≤ rest.length := by
          simp only [List.length_cons] at hlen
          omega
        have htake : (b :: rest).take (vintLength b) = b :: rest.take k := by
          rw [hk]
          rfl
        have hblt : b < 2 ^ (8 - k) := by
          have := vintLength_first_byte_lt (hb b (List.mem_cons_self b rest))
          rw [hk] at this
          have h9 : 9 - (k + 1) = 8 - k := by omega
          rwa [h9] at this
        have hrestk : ∀ x ∈ rest.take k, x < 256 := fun x hx =>
          hb x (List.mem_cons_of_mem b (List.take_subset k rest hx))
        have hBlt : beNat (rest.take k) < 2 ^ (8 * k) := by
          have h1 := beNat_lt_of_bytes hrestk
          have h2 : (rest.take k).length = k := by
            rw [List.length_take]
            omega
          rw [h2] at h1
          calc beNat (rest.take k) < 256 ^ k := h1
            _ = 2 ^ (8 * k) := by
                rw [show (256 : ℕ) = 2 ^ 8 by norm_num, ← pow_mul]
        have hk7 : k ≤ 7 := by omega
        have hX : beNat (b :: rest.take k) < 2 ^ (7 * k + 8) := by
          have h2 : (rest.take k).length = k := by
            rw [List.length_take]
            omega
          have h256 : (256 : ℕ) ^ k = 2 ^ (8 * k) := by
            rw [show (256 : ℕ) = 2 ^ 8 by norm_num, ← pow_mul]
          have hmul : b * 2 ^ (8 * k) ≤ (2 ^ (8 - k) - 1) * 2 ^ (8 * k) :=
            Nat.mul_le_mul_right _ (by omega)
          have hexp : 8 - k + 8 * k = 7 * k + 8 := by omega
          have hsub : (2 ^ (8 - k) - 1) * 2 ^ (8 * k)
              = 2 ^ (7 * k + 8) - 2 ^ (8 * k) := by
            rw [Nat.sub_mul, one_mul, ← pow_add, hexp]
          have hle8 : 2 ^ (8 * k) ≤ 2 ^ (7 * k + 8) :=
            Nat.pow_le_pow_right (by norm_num) (by omega)
          simp only [beNat, h2, h256]
          omega
        have h77 : 7 * (k + 1) = 7 * k + 7 := by ring
        have hP : 2 ^ (7 * k + 8) = 2 ^ (7 * k + 7) * 2 := by
          rw [← pow_succ]
        rw [← hv, htake, hk, h77]
        omega

/-- C6: for every successfully decoded tag identifier whose vint encoding
occupies `length` bytes and decodes to raw value `value`, `read_tag_id`
returns `value + 2 ^ (7 * length)` — the length-marker bit added back — and
consequently identifiers of different encoded byte-lengths never collide
numerically. -/
theorem c6_read_tag_id_marker {τ : Type} :
    (∀ (s : IterState τ) (b : Bool) (s' : IterState τ) (value length : Nat),
       ensure_data_read 8 s = (.ok b, s') →
       read_vint s'.buf = .ok (some (value, length)) →
       read_tag_id s = (.ok (value + 2 ^ (7 * length)), advance length s'))
    ∧ (∀ (buf bufB : List Nat) (v l vB lB : Nat),
       (∀ x ∈ buf, x < 256) → (∀ x ∈ bufB, x < 256) →
       read_vint buf = .ok (some (v, l)) →
       read_vint bufB = .ok (some (vB, lB)) →
       l ≠ lB → v + 2 ^ (7 * l) ≠ vB + 2 ^ (7 * lB)) := by
  constructor
  · intro s b s' value length h1 h2
    unfold read_tag_id
    rw [h1]
    dsimp only [rstep]
    rw [h2]
  · have key : ∀ (a la c lc : Nat), a < 2 ^ (7 * la) → la < lc →
        a + 2 ^ (7 * la) < c + 2 ^ (7 * lc) := by
      intro a la c lc ha hlt
      have h1 : a + 2 ^ (7 * la) < 2 ^ (7 * la + 1) := by
        have : 2 ^ (7 * la + 1) = 2 ^ (7 * la) * 2 := by rw [← pow_succ]
        omega
      have h2 : 2 ^ (7 * la + 1) ≤ 2 ^ (7 * lc) :=
        Nat.pow_le_pow_right (by norm_num) (by omega)
      omega
    intro buf bufB v l vB lB hbuf hbufB h1 h2 hne
    obtain ⟨hvB, _⟩ := read_vint_value_bound hbuf h1
    obtain ⟨hvBB, _⟩ := read_vint_value_bound hbufB h2
    rcases Nat.lt_or_ge l lB with hlt | hge
    · exact Nat.ne_of_lt (key v l vB lB hvB hlt)
    · have hlt : lB < l := by omega
      exact (Nat.ne_of_lt (key vB lB v l hvBB hlt)).symm

/-- A closed instance of the C6 theorem: the one-byte vint `0x81` decodes to
raw value 1 with length 1, and `read_tag_id` returns `1 + 2^7 = 129`. -/
theorem c6_witness :
    read_tag_id (⟨[], false, [129, 131, 130, 129, 5, 0, 0, 0], 0, []⟩
        : IterState TestTag)
      = (.ok (1 + 2 ^ (7 * 1)),
         advance 1 (⟨[], false, [129, 131, 130, 129, 5, 0, 0, 0], 0, []⟩
           : IterState TestTag)) :=
  c6_read_tag_id_marker.1 _ true _ 1 1 rfl rfl

/-- C7: a tag whose declared data type is a non-master type but whose decoded
size is the `Unknown` sentinel makes `read_tag` return the typed
corrupted-structural-data error, with the state exactly as it was after the
size field — no payload bytes are consumed and the stack is untouched. -/
theorem c7_unknown_size_leaf_error {τ : Type} (spec : EbmlSpec τ)
    (s s₁ s₂ : IterState τ) (tag_id : Nat)
    (h1 : read_tag_id s = (.ok tag_id, s₁))
    (hleaf : spec.get_tag_data_type tag_id ≠ TagDataType.Master)
    (h2 : read_tag_size s₁ = (.ok .Unknown, s₂)) :
    read_tag spec s
      = (.err (.CorruptedFileData "Unknown size for primitive not allowed"), s₂) := by
  unfold read_tag
  rw [h1]
  dsimp only [rstep]
  rw [h2]
  dsimp only [rstep]
  rw [if_neg hleaf]

/-- A closed instance of the C7 theorem: id 132 is an unsigned-int leaf and
the size byte `0xFF` decodes to `Unknown`, so `read_tag` fails with the
corrupted-data error and consumes nothing beyond the two header bytes. -/
theorem c7_witness :
    read_tag testSpec (⟨[], false, [132, 255, 0, 0, 0, 0, 0, 0], 0, []⟩
        : IterState TestTag)
      = (.err (.CorruptedFileData "Unknown size for primitive not allowed"),
         (⟨[], false, [0, 0, 0, 0, 0, 0, 0], 2, []⟩ : IterState TestTag)) :=
  c7_unknown_size_leaf_error testSpec
    (⟨[], false, [132, 255, 0, 0, 0, 0, 0, 0], 0, []⟩ : IterState TestTag)
    (⟨[], false, [255, 0, 0, 0, 0, 0, 0], 1, []⟩ : IterState TestTag)
    (⟨[], false, [0, 0, 0, 0, 0, 0, 0], 2, []⟩ : IterState TestTag)
    132 (by decide) (by decide) (by decide)

/-- C3: with an Unknown-size container open on top of the stack and the
buffered data decoding to a complete leaf tag whose identifier the
collaborator does not recognize as a child of that container, the `next`
call that reads the sibling returns the container's End tag and queues the
fully decoded sibling as a Deferred-next on the stack, and the immediately
following `next` call returns that sibling unchanged with no other state
change — the sibling is neither lost nor reordered. -/
theorem c3_unknown_closure_defer {τ : Type} (spec : EbmlSpec τ)
    (s s₁ s₂ s₃ : IterState τ) (parent : τ) (pstart : Nat)
    (rest : List (ProcessingTag τ)) (tag_id n : Nat) (raw : List Nat)
    (sibling : τ)
    (hstack : s.tag_stack = .EndTag parent .Unknown pstart :: rest)
    (hbuf : s.buf ≠ [])
    (h1 : read_tag_id s = (.ok tag_id, s₁))
    (hleaf : spec.get_tag_data_type tag_id ≠ TagDataType.Master)
    (h2 : read_tag_size s₁ = (.ok (.Known n), s₂))
    (hnc : spec.is_child parent tag_id = false)
    (h3 : read_tag_data n s₂ = (.ok raw, s₃))
    (hdec : decode_leaf spec (spec.get_tag_data_type tag_id) tag_id raw
      = .ok sibling) :
    next spec s
      = (some (.ok parent), { s₃ with tag_stack := .NextTag sibling :: rest })
    ∧ next spec { s₃ with tag_stack := .NextTag sibling :: rest }
      = (some (.ok sibling), { s₃ with tag_stack := rest }) := by
  have e1 : s₁.tag_stack = s.tag_stack := read_tag_id_tag_stack s _ s₁ h1
  have e2 : s₂.tag_stack = s.tag_stack := by
    rw [read_tag_size_tag_stack s₁ _ s₂ h2, e1]
  have e3 : s₃.tag_stack = s.tag_stack := by
    rw [read_tag_data_tag_stack n s₂ _ s₃ h3, e2]
  have hrt : read_tag spec s
      = (.ok parent, { s₃ with tag_stack := .NextTag sibling :: rest }) := by
    unfold read_tag
    rw [h1]
    dsimp only [rstep]
    rw [h2]
    dsimp only [rstep]
    rw [if_neg hleaf]
    rw [h3]
    dsimp only [rstep]
    rw [hdec]
    dsimp only
    rw [e2, hstack]
    dsimp only [compute_is_child]
    rw [hnc, if_neg (show ¬(false = true) by decide)]
    rw [e3, hstack]
    dsimp only [ProcessingTag.into_inner]
  constructor
  · unfold next
    rw [hstack]
    dsimp only
    unfold next_read
    rw [ensure_data_read_one_of_ne_nil s hbuf]
    dsimp only
    rw [if_pos rfl]
    rw [hrt]
  · rfl

/-- A closed instance of the C3 theorem: inside an Unknown-size master
(`testSpec` id 129), the non-child leaf id 132 with value 7 first surfaces
the master's End tag and is itself returned by the following call. -/
theorem c3_witness :
    next testSpec (⟨[], false, [132, 129, 7, 0, 0, 0], 5,
        [ProcessingTag.EndTag TestTag.MEnd EBMLSize.Unknown 2]⟩ : IterState TestTag)
      = (some (.ok TestTag.MEnd),
         (⟨[], false, [0, 0, 0, 0, 0, 0], 8,
           [ProcessingTag.NextTag (TestTag.SibC 7)]⟩ : IterState TestTag))
    ∧ next testSpec (⟨[], false, [0, 0, 0, 0, 0, 0], 8,
          [ProcessingTag.NextTag (TestTag.SibC 7)]⟩ : IterState TestTag)
      = (some (.ok (TestTag.SibC 7)),
         (⟨[], false, [0, 0, 0, 0, 0, 0], 8, []⟩ : IterState TestTag)) := by
  have h := c3_unknown_closure_defer testSpec
    (⟨[], false, [132, 129, 7, 0, 0, 0], 5,
      [ProcessingTag.EndTag TestTag.MEnd EBMLSize.Unknown 2]⟩ : IterState TestTag)
    (⟨[], false, [129, 7, 0, 0, 0, 0, 0], 6,
      [ProcessingTag.EndTag TestTag.MEnd EBMLSize.Unknown 2]⟩ : IterState TestTag)
    (⟨[], false, [7, 0, 0, 0, 0, 0, 0], 7,
      [ProcessingTag.EndTag TestTag.MEnd EBMLSize.Unknown 2]⟩ : IterState TestTag)
    (⟨[], false, [0, 0, 0, 0, 0, 0], 8,
      [ProcessingTag.EndTag TestTag.MEnd EBMLSize.Unknown 2]⟩ : IterState TestTag)
    TestTag.MEnd 2 [] 132 1 [7] (TestTag.SibC 7)
    rfl (by decide) rfl (by decide) rfl rfl rfl rfl
  exact ⟨h.1, h.2⟩

/-- C9: a collaborator that fails to construct a value its declared type
obliges it to support makes the engine panic (unrecoverable abort) — shown
for master Start/End construction at `read_tag` level and for every typed
leaf constructor at the decode step — whereas every data-dependent failure
(read failure, corrupted structural data, corrupted payload) is returned as
a typed error result of the same step, and a well-formed collaborator makes
`read_tag` panic-free on every input and state. -/
theorem c9_defect_panic_vs_typed_errors {τ : Type} :
    (∀ (spec : EbmlSpec τ) (s s₁ s₂ : IterState τ) (tag_id : Nat) (size : EBMLSize),
       read_tag_id s = (.ok tag_id, s₁) →
       spec.get_tag_data_type tag_id = TagDataType.Master →
       read_tag_size s₁ = (.ok size, s₂) →
       spec.get_master_tag tag_id Master.End = none →
       read_tag spec s = (.panic (badSpecMsg tag_id "master"), s₂))
    ∧ (∀ (spec : EbmlSpec τ) (s s₁ s₂ : IterState τ) (tag_id : Nat)
         (size : EBMLSize) (endVal : τ),
       read_tag_id s = (.ok tag_id, s₁) →
       spec.get_tag_data_type tag_id = TagDataType.Master →
       read_tag_size s₁ = (.ok size, s₂) →
       spec.get_master_tag tag_id Master.End = some endVal →
       spec.get_master_tag tag_id Master.Start = none →
       read_tag spec s = (.panic (badSpecMsg tag_id "master"), s₂))
    ∧ (∀ (spec : EbmlSpec τ) (tag_id : Nat) (raw : List Nat),
       (∀ v, arr_to_u64 raw = .ok v → spec.get_unsigned_int_tag tag_id v = none →
          decode_leaf spec TagDataType.UnsignedInt tag_id raw
            = .panic (badSpecMsg tag_id "unsigned int"))
       ∧ (∀ v, arr_to_i64 raw = .ok v → spec.get_signed_int_tag tag_id v = none →
          decode_leaf spec TagDataType.Integer tag_id raw
            = .panic (badSpecMsg tag_id "integer"))
       ∧ (utf8Valid raw = true → spec.get_utf8_tag tag_id raw = none →
          decode_leaf spec TagDataType.Utf8 tag_id raw
            = .panic (badSpecMsg tag_id "utf8"))
       ∧ (∀ v, arr_to_f64 raw = .ok v → spec.get_float_tag tag_id v = none →
          decode_leaf spec TagDataType.Float tag_id raw
            = .panic (badSpecMsg tag_id "float"))
       ∧ decode_leaf spec TagDataType.Binary tag_id raw
           = .ok ((spec.get_binary_tag tag_id raw).getD (spec.get_raw_tag tag_id raw))
       ∧ (∀ e, arr_to_u64 raw = .error e →
          decode_leaf spec TagDataType.UnsignedInt tag_id raw
            = .err (.CorruptedTagData tag_id e))
       ∧ (∀ e, arr_to_i64 raw = .error e →
          decode_leaf spec TagDataType.Integer tag_id raw
            = .err (.CorruptedTagData tag_id e))
       ∧ (utf8Valid raw = false →
          decode_leaf spec TagDataType.Utf8 tag_id raw
            = .err (.CorruptedTagData tag_id (.FromUtf8Error raw)))
       ∧ (∀ e, arr_to_f64 raw = .error e →
          decode_leaf spec TagDataType.Float tag_id raw
            = .err (.CorruptedTagData tag_id e)))
    ∧ (∀ (spec : EbmlSpec τ) (s s₁ s₂ s₃ : IterState τ) (tag_id n : Nat)
         (raw : List Nat),
       read_tag_id s = (.ok tag_id, s₁) →
       spec.get_tag_data_type tag_id ≠ TagDataType.Master →
       read_tag_size s₁ = (.ok (.Known n), s₂) →
       read_tag_data n s₂ = (.ok raw, s₃) →
       ((∀ e, decode_leaf spec (spec.get_tag_data_type tag_id) tag_id raw = .err e →
           read_tag spec s = (.err e, s₃))
        ∧ (∀ m, decode_leaf spec (spec.get_tag_data_type tag_id) tag_id raw = .panic m →
           read_tag spec s = (.panic m, s₃))))
    ∧ (∀ (spec : EbmlSpec τ) (s s₁ : IterState τ) (e : TagIteratorError),
       read_tag_id s = (.err e, s₁) → read_tag spec s = (.err e, s₁))
    ∧ (∀ (spec : EbmlSpec τ), WellFormedSpec spec →
       ∀ (s s' : IterState τ) (m : String), read_tag spec s ≠ (.panic m, s')) := by
  refine ⟨?_, ?_, ?_, ?_, ?_, ?_⟩
  · intro spec s s₁ s₂ tag_id size h1 hM h2 hEnd
    unfold read_tag
    rw [h1]
    dsimp only [rstep]
    rw [h2]
    dsimp only [rstep]
    rw [if_pos hM, hEnd]
  · intro spec s s₁ s₂ tag_id size endVal h1 hM h2 hEnd hStart
    unfold read_tag
    rw [h1]
    dsimp only [rstep]
    rw [h2]
    dsimp only [rstep]
    rw [if_pos hM, hEnd]
    dsimp only
    rw [hStart]
  · intro spec tag_id raw
    refine ⟨?_, ?_, ?_, ?_, rfl, ?_, ?_, ?_, ?_⟩
    · intro v hu hn
      unfold decode_leaf
      rw [hu]
      dsimp only
      rw [hn]
    · intro v hu hn
      unfold decode_leaf
      rw [hu]
      dsimp only
      rw [hn]
    · intro hvalid hn
      unfold decode_leaf string_from_utf8
      rw [hvalid, if_pos rfl]
      dsimp only
      rw [hn]
    · intro v hu hn
      unfold decode_leaf
      rw [hu]
      dsimp only
      rw [hn]
    · intro e hu
      unfold decode_leaf
      rw [hu]
    · intro e hu
      unfold decode_leaf
      rw [hu]
    · intro hvalid
      unfold decode_leaf string_from_utf8
      rw [hvalid, if_neg (show ¬(false = true) by decide)]
    · intro e hu
      unfold decode_leaf
      rw [hu]
  · intro spec s s₁ s₂ s₃ tag_id n raw h1 hM h2 h3
    have hbase : ∀ (r : RResult τ),
        decode_leaf spec (spec.get_tag_data_type tag_id) tag_id raw = r →
        read_tag spec s
          = rstep (read_tag_data n s₂) fun raw_data s₃' =>
              match decode_leaf spec (spec.get_tag_data_type tag_id) tag_id raw_data with
              | .ok tag =>
                if compute_is_child spec s₂.tag_stack tag_id then (.ok tag, s₃')
                else
                  match s₃'.tag_stack with
                  | [] => (.panic "called Option::unwrap on a None value", s₃')
                  | old :: rest =>
                    (.ok old.into_inner, { s₃' with tag_stack := .NextTag tag :: rest })
              | .err e => (.err e, s₃')
              | .panic m => (.panic m, s₃') := by
      intro r _
      unfold read_tag
      rw [h1]
      dsimp only [rstep]
      rw [h2]
      dsimp only [rstep]
      rw [if_neg hM]
    constructor
    · intro e hdec
      rw [hbase _ hdec, h3]
      dsimp only [rstep]
      rw [hdec]
    · intro m hdec
      rw [hbase _ hdec, h3]
      dsimp only [rstep]
      rw [hdec]
  · intro spec s s₁ e h1
    unfold read_tag
    rw [h1]
    dsimp only [rstep]
  · intro spec hwf s s' m
    obtain ⟨hwfM, hwfU, hwfI, hwfS, hwfF⟩ := hwf
    intro hcontra
    unfold read_tag at hcontra
    rcases hid : read_tag_id s with ⟨r1, s₁⟩
    rw [hid] at hcontra
    cases r1 with
    | err e =>
      dsimp only [rstep] at hcontra
      simp at hcontra
    | panic m0 => exact read_tag_id_no_panic s m0 s₁ hid
    | ok tag_id =>
      dsimp only [rstep] at hcontra
      rcases hsz : read_tag_size s₁ with ⟨r2, s₂⟩
      rw [hsz] at hcontra
      cases r2 with
      | err e =>
        dsimp only [rstep] at hcontra
        simp at hcontra
      | panic m0 => exact read_tag_size_no_panic s₁ m0 s₂ hsz
      | ok size =>
        dsimp only [rstep] at hcontra
        by_cases hM : spec.get_tag_data_type tag_id = TagDataType.Master
        · rw [if_pos hM] at hcontra
          obtain ⟨hS, hE⟩ := hwfM tag_id hM
          obtain ⟨endVal, hEv⟩ := Option.isSome_iff_exists.mp hE
          obtain ⟨startVal, hSv⟩ := Option.isSome_iff_exists.mp hS
          rw [hEv, hSv] at hcontra
          dsimp only at hcontra
          by_cases hic : compute_is_child spec s₂.tag_stack tag_id = true
          · rw [if_pos hic] at hcontra
            simp at hcontra
          · rw [if_neg hic] at hcontra
            cases hst : s₂.tag_stack with
            | nil =>
              rw [hst] at hic
              exact hic rfl
            | cons old rest =>
              rw [hst] at hcontra
              dsimp only at hcontra
              simp at hcontra
        · rw [if_neg hM] at hcontra
          cases size with
          | Unknown => simp at hcontra
          | Known nsz =>
            dsimp only at hcontra
            rcases hdt : read_tag_data nsz s₂ with ⟨r3, s₃⟩
            rw [hdt] at hcontra
            cases r3 with
            | err e =>
              dsimp only [rstep] at hcontra
              simp at hcontra
            | panic m0 => exact read_tag_data_no_panic nsz s₂ m0 s₃ hdt
            | ok raw =>
              dsimp only [rstep] at hcontra
              have hdl : ∀ m1,
                  decode_leaf spec (spec.get_tag_data_type tag_id) tag_id raw
                    ≠ .panic m1 := by
                intro m1
                cases hdt2 : spec.get_tag_data_type tag_id with
                | Master => exact absurd hdt2 hM
                | UnsignedInt =>
                  unfold decode_leaf
                  cases hu : arr_to_u64 raw with
                  | error e => simp
                  | ok v =>
                    obtain ⟨t, ht⟩ :=
                      Option.isSome_iff_exists.mp (hwfU tag_id v hdt2)
                    dsimp only
                    rw [ht]
                    simp
                | Integer =>
                  unfold decode_leaf
                  cases hu : arr_to_i64 raw with
                  | error e => simp
                  | ok v =>
                    obtain ⟨t, ht⟩ :=
                      Option.isSome_iff_exists.mp (hwfI tag_id v hdt2)
                    dsimp only
                    rw [ht]
                    simp
                | Utf8 =>
                  unfold decode_leaf
                  cases hu : string_from_utf8 raw with
                  | none => simp
                  | some val =>
                    have hvr : val = raw := by
                      unfold string_from_utf8 at hu
                      by_cases hv : utf8Valid raw = true
                      · rw [hv, if_pos rfl] at hu
                        exact (Option.some.injEq _ _ ▸ hu).symm
                      · rw [if_neg hv] at hu
                        cases hu
                    subst hvr
                    obtain ⟨t, ht⟩ :=
                      Option.isSome_iff_exists.mp (hwfS tag_id val hdt2)
                    dsimp only
                    rw [ht]
                    simp
                | Binary => simp [decode_leaf]
                | Float =>
                  unfold decode_leaf
                  cases hu : arr_to_f64 raw with
                  | error e => simp
                  | ok v =>
                    obtain ⟨t, ht⟩ :=
                      Option.isSome_iff_exists.mp (hwfF tag_id v hdt2)
                    dsimp only
                    rw [ht]
                    simp
              rcases hdec : decode_leaf spec (spec.get_tag_data_type tag_id) tag_id raw
                with t | e | m1
              · rw [hdec] at hcontra
                dsimp only at hcontra
                by_cases hic : compute_is_child spec s₂.tag_stack tag_id = true
                · rw [if_pos hic] at hcontra
                  simp at hcontra
                · rw [if_neg hic] at hcontra
                  have est : s₃.tag_stack = s₂.tag_stack :=
                    read_tag_data_tag_stack nsz s₂ _ s₃ hdt
                  cases hst : s₃.tag_stack with
                  | nil =>
                    rw [hst] at est
                    rw [← est] at hic
                    exact hic rfl
                  | cons old rest =>
                    rw [hst] at hcontra
                    dsimp only at hcontra
                    simp at hcontra
              · rw [hdec] at hcontra
                simp at hcontra
              · exact hdl m1 hdec

/-- A closed instance of the C9 theorem: under `defectSpec` (whose master
constructor always fails) the master id 129 makes `read_tag` panic with the
bad-specification message. -/
theorem c9_witness :
    read_tag defectSpec (⟨[], false, [129, 131, 0, 0, 0, 0, 0, 0], 0, []⟩
        : IterState TestTag)
      = (.panic (badSpecMsg 129 "master"),
         (⟨[], false, [0, 0, 0, 0, 0, 0, 0], 2, []⟩ : IterState TestTag)) :=
  c9_defect_panic_vs_typed_errors.1 defectSpec
    (⟨[], false, [129, 131, 0, 0, 0, 0, 0, 0], 0, []⟩ : IterState TestTag)
    (⟨[], false, [131, 0, 0, 0, 0, 0, 0], 1, []⟩ : IterState TestTag)
    (⟨[], false, [0, 0, 0, 0, 0, 0, 0], 2, []⟩ : IterState TestTag)
    129 (.Known 3) (by decide) (by decide) (by decide) (by decide)

/-- C1 (code bug): on the two bytes `0x81 0xFF` — a master tag of Unknown
size — followed by clean end of data, the first call returns the master's
Start tag and leaves exactly one still-open container with the source
drained, yet the subsequent calls return corrupted-data errors instead of
the one End tag and the end-of-sequence signal the spec requires: the zero
padding left in the buffer by `ensure_data_read` at end of stream is
consumed as though it were stream data. -/
theorem c1_drain_phantom_error :
    (next testSpec (new (τ := TestTag) [129, 255] false)).1
      = some (.ok TestTag.MStart)
    ∧ (next testSpec (new (τ := TestTag) [129, 255] false)).2.tag_stack
      = [ProcessingTag.EndTag TestTag.MEnd EBMLSize.Unknown 2]
    ∧ (next testSpec (new (τ := TestTag) [129, 255] false)).2.source = []
    ∧ next_calls_take testSpec 3 (new (τ := TestTag) [129, 255] false)
      = [.ok TestTag.MStart,
         .err (.CorruptedFileData (toolErrorMessage ToolError.ReadVintOverflow)),
         .err (.CorruptedFileData (toolErrorMessage ToolError.ReadVintOverflow))] := by
  decide

/-- C5 (code bug): the bytes `0x81 0x83 0x82 0x81 0x05` encode a Known-size
master containing one UnsignedInt leaf of value 5; successive calls yield
exactly MasterA-Start, UnsignedInt(5), MasterA-End — but the fourth call
returns a corrupted-data error produced from the leftover zero padding
instead of the end-of-sequence signal the spec requires. -/
theorem c5_example_sequence :
    next_calls_take testSpec 4 (new (τ := TestTag) [129, 131, 130, 129, 5] false)
      = [.ok TestTag.MStart, .ok (TestTag.UIntA 5), .ok TestTag.MEnd,
         .err (.CorruptedFileData (toolErrorMessage ToolError.ReadVintOverflow))] := by
  decide

end EbmlIterable
